import Mathlib

/-!
Verification development for the chart-spirit-games repository.

The repository has two small dashboards:
  * `src/sports_dashboard.py` — live sports scoreboard/standings viewer.
    Its logic core is `_parse_wins_losses` (the Record Extractor) and
    `build_standings_df` (the Standings Normalizer).
  * `src/app.py` / `src/streamlit.py` — the leaderboard (the Leaderboard
    Ranker): replace the "x" sentinel, drop rows without a player name,
    sort by grand total, mark maximal rows with a trophy emoji.

We shallowly embed the Python functions over a JSON value type.  Python
exceptions are modelled with `Except String`, the error string naming the
Python exception class.  Python floats are modelled as rationals (`ℚ`);
float special values (inf/nan) and scientific notation are not modelled —
no claim exercises them.
-/

/-- JSON values as produced by `json.loads`, plus Python `None`/booleans.
Numbers are modelled as rationals. -/
inductive JVal where
  | null
  | bool (b : Bool)
  | num (q : ℚ)
  | str (s : String)
  | arr (xs : List JVal)
  | obj (fs : List (String × JVal))

/-- Python truthiness (`bool(x)`): `None`/`False`/`0`/`""`/`[]`/`{}` are falsy. -/
def pyTruthy : JVal → Bool
  | .null => false
  | .bool b => b
  | .num q => q != 0
  | .str s => s != ""
  | .arr xs => !xs.isEmpty
  | .obj fs => !fs.isEmpty

/-- Dictionary lookup.  Python dict keys are unique, so first match suffices. -/
def jLookup (fs : List (String × JVal)) (k : String) : Option JVal :=
  match fs.find? (fun p => p.1 == k) with
  | some p => some p.2
  | none => none

/-- `d.get(k, default)` on a value known to be a dict. -/
def jGetD (fs : List (String × JVal)) (k : String) (d : JVal) : JVal :=
  (jLookup fs k).getD d

/-- `x.get(k, default)` on an arbitrary value: raises `AttributeError`
when `x` is not a dict.  `x.get(k)` is `pyGet x k .null`. -/
def pyGet : JVal → String → JVal → Except String JVal
  | .obj fs, k, d => .ok (jGetD fs k d)
  | _, _, _ => .error "AttributeError"

/-- `for x in v`: lists iterate elements, strings iterate 1-char strings,
dicts iterate keys; other values raise `TypeError`. -/
def pyIter : JVal → Except String (List JVal)
  | .arr xs => .ok xs
  | .str s => .ok (s.toList.map (fun c => .str (String.singleton c)))
  | .obj fs => .ok (fs.map (fun p => .str p.1))
  | _ => .error "TypeError"

/-- `k in d` for a dict (the normalizer only evaluates it on a dict). -/
def hasKey (j : JVal) (k : String) : Bool :=
  match j with
  | .obj fs => (jLookup fs k).isSome
  | _ => false

/-- Python `a or b`: `a` when truthy, otherwise `b`. -/
def orJ (a b : JVal) : JVal := if pyTruthy a then a else b

/-- Python `repr` of a value; the `str`/`num` cases are the ones the claims
exercise.  Non-integer numbers print in `ℚ` notation rather than float
notation (floats are modelled as rationals). -/
def pyRepr : JVal → String
  | .null => "None"
  | .bool b => if b then "True" else "False"
  | .num q => if q.den == 1 then toString q.num else toString q
  | .str s => "\x27" ++ s ++ "\x27"
  | .arr xs => "[" ++ String.intercalate ", " (xs.attach.map (fun x => pyRepr x.1)) ++ "]"
  | .obj fs =>
      "\x7b" ++
        String.intercalate ", "
          (fs.attach.map (fun p => "\x27" ++ p.1.1 ++ "\x27: " ++ pyRepr p.1.2)) ++
      "\x7d"
decreasing_by
  · have := List.sizeOf_lt_of_mem x.2
    simp_wf
    omega
  · have h1 := List.sizeOf_lt_of_mem p.2
    have h2 : sizeOf p.1.2 < sizeOf p.1 := by
      obtain ⟨⟨a, b⟩, hab⟩ := p
      simp only [Prod.mk.sizeOf_spec]
      omega
    simp_wf
    omega

/-- Python `str(x)`. -/
def pyStr : JVal → String
  | .str s => s
  | v => pyRepr v

/-- ASCII lowercasing of one character (`str.lower`; the stat labels the
claims mention are ASCII). -/
def lowerChar (c : Char) : Char :=
  if 'A' ≤ c ∧ c ≤ 'Z' then Char.ofNat (c.toNat + 32) else c

/-- `s.lower()`. -/
def lowerStr (s : String) : String := String.mk (s.toList.map lowerChar)

/-- `leadsWith pat l`: `pat` is an initial segment of `l`. -/
def leadsWith : List Char → List Char → Bool
  | [], _ => true
  | _ :: _, [] => false
  | p :: ps, c :: cs => p == c && leadsWith ps cs

/-- `hasSub pat l`: `pat` occurs contiguously inside `l`. -/
def hasSub (pat : List Char) : List Char → Bool
  | [] => leadsWith pat []
  | c :: cs => leadsWith pat (c :: cs) || hasSub pat cs

/-- Python `pat in s` (substring containment). -/
def strContains (s pat : String) : Bool := hasSub pat.toList s.toList

/-- Python whitespace stripping (`str.strip` over the usual ASCII space set). -/
def isSpace (c : Char) : Bool := c == ' ' || c == '\t' || c == '\n' || c == '\r'

def trimChars (l : List Char) : List Char :=
  ((l.dropWhile isSpace).reverse.dropWhile isSpace).reverse

def allDigits (l : List Char) : Bool := l.all (fun c => '0' ≤ c && c ≤ '9')

def natOfDigits (l : List Char) : ℕ :=
  l.foldl (fun a c => a * 10 + (c.toNat - '0'.toNat)) 0

/-- Unsigned decimal literal, with optional fractional part, as accepted by
Python `float` (exponents/inf/nan not modelled). -/
def parseUnsigned (l : List Char) : Option ℚ :=
  match l.span (fun c => c != '.') with
  | (ip, []) =>
      if !ip.isEmpty && allDigits ip then some ((natOfDigits ip : ℕ) : ℚ) else none
  | (ip, _ :: fp) =>
      if (!ip.isEmpty || !fp.isEmpty) && allDigits ip && allDigits fp then
        some (((natOfDigits ip : ℕ) : ℚ) + ((natOfDigits fp : ℕ) : ℚ) / ((10 : ℚ) ^ fp.length))
      else none

/-- Python `float(s)` on a string: `some` the parsed value, `none` models a
`ValueError`. -/
def parseFloat (s : String) : Option ℚ :=
  match trimChars s.toList with
  | '-' :: rest => (parseUnsigned rest).map (fun q => -q)
  | '+' :: rest => parseUnsigned rest
  | l => parseUnsigned l

/-- Python `int(s)` on a string (integer literals only): `none` models a
`ValueError`. -/
def parseIntStr (s : String) : Option Int :=
  match trimChars s.toList with
  | '-' :: rest =>
      if !rest.isEmpty && allDigits rest then some (-(natOfDigits rest : Int)) else none
  | '+' :: rest =>
      if !rest.isEmpty && allDigits rest then some ((natOfDigits rest : Int)) else none
  | l =>
      if !l.isEmpty && allDigits l then some ((natOfDigits l : Int)) else none

/-- Truncation toward zero, as in Python `int(float(...))`. -/
def truncQ (q : ℚ) : Int :=
  if q.num < 0 then -(Int.ofNat (q.num.natAbs / q.den)) else Int.ofNat (q.num.natAbs / q.den)

/-- Python `float(v)` on an arbitrary value: `none` models the
`ValueError`/`TypeError` cases (`None`, lists, dicts, bad strings). -/
def pyFloat : JVal → Option ℚ
  | .num q => some q
  | .bool b => some (if b then 1 else 0)
  | .str s => parseFloat s
  | _ => none

/-- Python `int(v)` where the call can raise (structure-3 else-branch):
errors carry the Python exception name. -/
def pyIntE : JVal → Except String Int
  | .num q => .ok (truncQ q)
  | .bool b => .ok (if b then 1 else 0)
  | .str s =>
      match parseIntStr s with
      | some n => .ok n
      | none => .error "ValueError"
  | _ => .error "TypeError"

/-- Python `s.split(sep)` for a single-character separator, over char lists. -/
def splitOnChar (sep : Char) : List Char → List (List Char)
  | [] => [[]]
  | c :: cs =>
    let r := splitOnChar sep cs
    if c = sep then [] :: r
    else
      match r with
      | h :: t => (c :: h) :: t
      | [] => [[c]]

/-! ## Record Extractor (`_parse_wins_losses`, src/sports_dashboard.py:252-274) -/

/-- `n = (str(s.get("name") or s.get("abbreviation") or s.get("type") or "")).lower()` -/
def statLabel (fs : List (String × JVal)) : String :=
  lowerStr (pyStr (orJ (jGetD fs "name" .null)
    (orJ (jGetD fs "abbreviation" .null)
      (orJ (jGetD fs "type" .null) (.str "")))))

/-- `v = s.get("value", 0) or 0; try: v = int(float(v)) except (ValueError, TypeError): v = 0` -/
def statValue (fs : List (String × JVal)) : Int :=
  let v0 := jGetD fs "value" (.num 0)
  let v1 := if pyTruthy v0 then v0 else .num 0
  match pyFloat v1 with
  | some q => truncQ q
  | none => 0

/-- `n in ("w", "win", "wins") or (n and "win" in n and "loss" not in n)` -/
def winLabel (n : String) : Bool :=
  n == "w" || n == "win" || n == "wins" ||
    (n != "" && strContains n "win" && !strContains n "loss")

/-- `n in ("l", "loss", "losses") or (n and "loss" in n)` -/
def lossLabel (n : String) : Bool :=
  n == "l" || n == "loss" || n == "losses" || (n != "" && strContains n "loss")

/-- The labelled scan of `_parse_wins_losses`: non-dict entries are skipped,
later matches overwrite earlier ones of the same kind. -/
def scanStats : List JVal → Int → Int → Int × Int
  | [], w, l => (w, l)
  | s :: rest, w, l =>
    match s with
    | .obj fs =>
      if winLabel (statLabel fs) then scanStats rest (statValue fs) l
      else if lossLabel (statLabel fs) then scanStats rest w (statValue fs)
      else scanStats rest w l
    | _ => scanStats rest w l

/-- `int(float(stats[i].get("value", 0) or 0))` in the positional fallback:
non-dict entries raise `AttributeError` (NOT caught by the `except` clause,
which lists only `ValueError, TypeError, IndexError`); a value `float` cannot
parse is `ok none` (`ValueError`/`TypeError`, caught). -/
def fallbackVal : JVal → Except String (Option Int)
  | .obj fs =>
      let v0 := jGetD fs "value" (.num 0)
      let v1 := if pyTruthy v0 then v0 else .num 0
      .ok ((pyFloat v1).map truncQ)
  | _ => .error "AttributeError"

/-- `_parse_wins_losses`.  The fallback's tuple assignment
`wins, losses = A, B` evaluates `A` then `B` before assigning, so a caught
failure in either leaves the scan result `(0, 0)` unchanged. -/
def parse_wins_losses (stats : List JVal) : Except String (Int × Int) :=
  match scanStats stats 0 0, stats with
  | (w, l), s0 :: s1 :: _ =>
    if w == 0 && l == 0 then
      match fallbackVal s0 with
      | .error e => .error e
      | .ok none => .ok (w, l)
      | .ok (some w2) =>
        match fallbackVal s1 with
        | .error e => .error e
        | .ok none => .ok (w, l)
        | .ok (some l2) => .ok (w2, l2)
    else .ok (w, l)
  | (w, l), _ => .ok (w, l)

/-- `_parse_wins_losses(stats)` where `stats` is the raw value of a
`"stats"` field (the code passes `group.get("stats", [])` unchecked).
A dict iterates its keys (all strings, skipped by the scan, so the scan is
`(0, 0)`) and `stats[0]` on a dict raises `KeyError`; a string iterates its
characters; other non-list values raise `TypeError` at `for s in stats`. -/
def parseWLraw (stats : JVal) : Except String (Int × Int) :=
  match stats with
  | .arr xs => parse_wins_losses xs
  | .str s => parse_wins_losses (s.toList.map (fun c => .str (String.singleton c)))
  | .obj fs => if fs.length ≥ 2 then .error "KeyError" else .ok (0, 0)
  | _ => .error "TypeError"

/-! ## Standings Normalizer (`build_standings_df`, src/sports_dashboard.py:277-352) -/

/-- One output row of the standings table. -/
structure Row where
  conference : JVal
  team : JVal
  abbr : JVal
  wins : Int
  losses : Int

/-- Structure 1, one element of `conf["standings"]["entries"]`. -/
def struct1Entry (cn : JVal) (g : JVal) : Except String (Option Row) :=
  match pyGet g "team" (.obj []) with
  | .error e => .error e
  | .ok team =>
    match pyGet g "stats" (.arr []) with
    | .error e => .error e
    | .ok stats =>
      match parseWLraw stats with
      | .error e => .error e
      | .ok (w, l) =>
        match pyGet team "displayName" .null with
        | .error e => .error e
        | .ok dn =>
          match (if pyTruthy dn then Except.ok dn else pyGet team "shortDisplayName" (.str "")) with
          | .error e => .error e
          | .ok tn =>
            if pyTruthy tn then
              match pyGet team "abbreviation" (.str "") with
              | .error e => .error e
              | .ok ab => .ok (some ⟨cn, tn, ab, w, l⟩)
            else .ok none

def struct1EntryList (cn : JVal) : List JVal → Except String (List Row)
  | [] => .ok []
  | g :: rest =>
    match struct1Entry cn g with
    | .error e => .error e
    | .ok r? =>
      match struct1EntryList cn rest with
      | .error e => .error e
      | .ok rs => .ok ((match r? with | some r => [r] | none => []) ++ rs)

/-- Structure 1, one element of `standings_data["children"]`. -/
def struct1Conf (conf : JVal) : Except String (List Row) :=
  match pyGet conf "name" (.str "") with
  | .error e => .error e
  | .ok cn =>
    match pyGet conf "standings" (.obj []) with
    | .error e => .error e
    | .ok st =>
      match pyGet st "entries" (.arr []) with
      | .error e => .error e
      | .ok entriesV =>
        match pyIter entriesV with
        | .error e => .error e
        | .ok gs => struct1EntryList cn gs

def struct1Confs : List JVal → Except String (List Row)
  | [] => .ok []
  | c :: rest =>
    match struct1Conf c with
    | .error e => .error e
    | .ok rs =>
      match struct1Confs rest with
      | .error e => .error e
      | .ok rs2 => .ok (rs ++ rs2)

/-- Structure 2, one entry: `team = group.get("team", group)`, bare-string
teams are skipped (`if isinstance(team, str): continue`). -/
def struct2Entry (cn : JVal) (g : JVal) : Except String (Option Row) :=
  match pyGet g "team" g with
  | .error e => .error e
  | .ok team =>
    match team with
    | .str _ => .ok none
    | _ =>
      match pyGet g "stats" (.arr []) with
      | .error e => .error e
      | .ok stats =>
        match parseWLraw stats with
        | .error e => .error e
        | .ok (w, l) =>
          match pyGet team "displayName" .null with
          | .error e => .error e
          | .ok dn =>
            match (if pyTruthy dn then Except.ok dn
                   else
                     match pyGet team "shortDisplayName" .null with
                     | .error e => .error e
                     | .ok sdn =>
                       if pyTruthy sdn then Except.ok sdn
                       else pyGet team "name" (.str "")) with
            | .error e => .error e
            | .ok tn =>
              if pyTruthy tn then
                match pyGet team "abbreviation" (.str "") with
                | .error e => .error e
                | .ok ab => .ok (some ⟨cn, tn, ab, w, l⟩)
              else .ok none

def struct2EntryList (cn : JVal) : List JVal → Except String (List Row)
  | [] => .ok []
  | g :: rest =>
    match struct2Entry cn g with
    | .error e => .error e
    | .ok r? =>
      match struct2EntryList cn rest with
      | .error e => .error e
      | .ok rs => .ok ((match r? with | some r => [r] | none => []) ++ rs)

/-- Structure 2, one group.  `conf_name = grp.get("name", grp.get("label", ""))`
(Python evaluates the inner default first);
`entries = grp.get("standings", {}).get("entries", grp.get("entries", []))`
raises `AttributeError` when `grp["standings"]` is not a dict. -/
def struct2Grp (grp : JVal) : Except String (List Row) :=
  match pyGet grp "label" (.str "") with
  | .error e => .error e
  | .ok lb =>
    match pyGet grp "name" lb with
    | .error e => .error e
    | .ok cn =>
      match pyGet grp "standings" (.obj []) with
      | .error e => .error e
      | .ok t1 =>
        match pyGet grp "entries" (.arr []) with
        | .error e => .error e
        | .ok t2 =>
          match pyGet t1 "entries" t2 with
          | .error e => .error e
          | .ok entriesV =>
            match pyIter entriesV with
            | .error e => .error e
            | .ok gs => struct2EntryList cn gs

def struct2Grps : List JVal → Except String (List Row)
  | [] => .ok []
  | g :: rest =>
    match struct2Grp g with
    | .error e => .error e
    | .ok rs =>
      match struct2Grps rest with
      | .error e => .error e
      | .ok rs2 => .ok (rs ++ rs2)

/-- Structure 2 top level:
`content = standings_data.get("content", standings_data)`;
`groups = content.get("standings", {}).get("groups", content.get("groups", []))`
— `AttributeError` when `content["standings"]` is not a dict (e.g. a list),
so the `isinstance(content.get("standings"), list)` rescue on the next line
can never fire for a present standings list;
then `if not groups and isinstance(content.get("standings"), list):
groups = content["standings"]`. -/
def struct2Rows (data : JVal) : Except String (List Row) :=
  match pyGet data "content" data with
  | .error e => .error e
  | .ok content =>
    match pyGet content "standings" (.obj []) with
    | .error e => .error e
    | .ok t1 =>
      match pyGet content "groups" (.arr []) with
      | .error e => .error e
      | .ok t2 =>
        match pyGet t1 "groups" t2 with
        | .error e => .error e
        | .ok groups0 =>
          match (if pyTruthy groups0 then Except.ok groups0
                 else
                   match pyGet content "standings" .null with
                   | .error e => .error e
                   | .ok sv =>
                     match sv with
                     | .arr xs => Except.ok (JVal.arr xs)
                     | _ => Except.ok groups0) with
          | .error e => .error e
          | .ok groups =>
            match pyIter groups with
            | .error e => .error e
            | .ok gs => struct2Grps gs

/-- Structure 3 else-branch:
`wins = int(group.get("wins", 0) or 0); losses = int(group.get("losses", 0) or 0)`
— the `int` calls are NOT wrapped in try/except, so a present unparseable
value raises `ValueError`/`TypeError`. -/
def struct3Else (g : JVal) : Except String (Int × Int) :=
  match pyGet g "wins" (.num 0) with
  | .error e => .error e
  | .ok wv =>
    match pyIntE (if pyTruthy wv then wv else .num 0) with
    | .error e => .error e
    | .ok w =>
      match pyGet g "losses" (.num 0) with
      | .error e => .error e
      | .ok lv =>
        match pyIntE (if pyTruthy lv then lv else .num 0) with
        | .error e => .error e
        | .ok l => .ok (w, l)

/-- Structure 3 record parsing:
`record = group.get("record", {}) or group.get("summary", "")`;
a `"W-L"` string is split on `"-"` and both halves parsed with `int`
(tuple assignment: a caught failure leaves both at the except value `(0, 0)`). -/
def struct3WL (g : JVal) : Except String (Int × Int) :=
  match pyGet g "record" (.obj []) with
  | .error e => .error e
  | .ok rec0 =>
    match (if pyTruthy rec0 then Except.ok rec0 else pyGet g "summary" (.str "")) with
    | .error e => .error e
    | .ok record =>
      match record with
      | .str s =>
        if strContains s "-" then
          match splitOnChar '-' s.toList with
          | a :: b :: _ =>
            match parseIntStr (String.mk (trimChars a)), parseIntStr (String.mk (trimChars b)) with
            | some w, some l => .ok (w, l)
            | _, _ => .ok (0, 0)
          | _ => .ok (0, 0)
        else struct3Else g
      | _ => struct3Else g

/-- Structure 3, one element of `standings_data["teams"]`.
`team_name = team.get("displayName") if isinstance(team, dict) else str(team)`:
a bare-string team is NOT skipped here. -/
def struct3Entry (g : JVal) : Except String (Option Row) :=
  match pyGet g "team" g with
  | .error e => .error e
  | .ok team =>
    match struct3WL g with
    | .error e => .error e
    | .ok (w, l) =>
      match (match team with
             | .obj fs => jGetD fs "displayName" .null
             | t => .str (pyStr t)) with
      | tn =>
        if pyTruthy tn then
          .ok (some ⟨.str "", tn,
            (match team with | .obj fs => jGetD fs "abbreviation" (.str "") | _ => .str ""),
            w, l⟩)
        else .ok none

def struct3List : List JVal → Except String (List Row)
  | [] => .ok []
  | g :: rest =>
    match struct3Entry g with
    | .error e => .error e
    | .ok r? =>
      match struct3List rest with
      | .error e => .error e
      | .ok rs => .ok ((match r? with | some r => [r] | none => []) ++ rs)

/-- Structure 3 top level: `if not rows and "teams" in standings_data:`.
`standings_data` is a dict whenever this point is reached (the structure-1
`.get` already succeeded), so `hasKey` models the `in` test. -/
def struct3Rows (data : JVal) : Except String (List Row) :=
  if hasKey data "teams" then
    match pyGet data "teams" (.arr []) with
    | .error e => .error e
    | .ok teams =>
      match pyIter teams with
      | .error e => .error e
      | .ok gs => struct3List gs
  else .ok []

/-- `build_standings_df`: `if not standings_data: return None`; try the three
structures in order, each only when the previous ones produced no rows;
`if not rows: return None`. -/
def build_standings_df (data : JVal) : Except String (Option (List Row)) :=
  if pyTruthy data then
    match pyGet data "children" (.arr []) with
    | .error e => .error e
    | .ok children =>
      match pyIter children with
      | .error e => .error e
      | .ok confs =>
        match struct1Confs confs with
        | .error e => .error e
        | .ok rows1 =>
          match (if rows1.isEmpty then struct2Rows data else .ok rows1) with
          | .error e => .error e
          | .ok rows2 =>
            match (if rows2.isEmpty then struct3Rows data else .ok rows2) with
            | .error e => .error e
            | .ok rows3 =>
              if rows3.isEmpty then .ok none else .ok (some rows3)
  else .ok none

/-! ## Leaderboard Ranker (`load_scores`, src/app.py:77-96; src/streamlit.py:5-21) -/

/-- One spreadsheet cell after `pd.read_csv`: a number, a string (such as the
literal `"x"` sentinel), or missing (NaN). -/
inductive Cell where
  | num (q : ℚ)
  | strv (s : String)
  | missing
deriving DecidableEq

/-- One row of `scores.csv` after the column renaming. -/
structure ScoreRow where
  member : Cell
  freeThrow : Cell
  putting : Cell
  beerPong : Cell
  cornHole : Cell
  gameTotal : Cell
  spiritTotal : Cell
  totalTotal : Cell
  emoji : String
deriving DecidableEq

/-- `df.replace("x", None)` on one cell. -/
def replaceCell (c : Cell) : Cell := if c = .strv "x" then .missing else c

def replaceRow (r : ScoreRow) : ScoreRow :=
  { member := replaceCell r.member
    freeThrow := replaceCell r.freeThrow
    putting := replaceCell r.putting
    beerPong := replaceCell r.beerPong
    cornHole := replaceCell r.cornHole
    gameTotal := replaceCell r.gameTotal
    spiritTotal := replaceCell r.spiritTotal
    totalTotal := replaceCell r.totalTotal
    emoji := r.emoji }

/-- `df.dropna(subset=["Team Member"])`. -/
def dropMissingMember (rows : List ScoreRow) : List ScoreRow :=
  rows.filter (fun r => !(r.member == .missing))

/-- The numeric grand total of a row (`NaN`/non-numeric gives `none`). -/
def totalOf (r : ScoreRow) : Option ℚ :=
  match r.totalTotal with
  | .num q => some q
  | _ => none

/-- `df["Total Total"].max()`: the maximum over the numeric cells, `none`
when there is none (pandas skips NaN). -/
def maxTotal (rows : List ScoreRow) : Option ℚ :=
  rows.foldr (fun r acc =>
    match totalOf r, acc with
    | some q, some m => some (max q m)
    | some q, none => some q
    | none, a => a) none

/-- `row["Total Total"] == df["Total Total"].max()` — false when either side
is NaN, as in pandas/NumPy float comparison. -/
def isTop (m : Option ℚ) (r : ScoreRow) : Bool :=
  match totalOf r, m with
  | some q, some t => q == t
  | _, _ => false

/-- `df["Emoji"] = df.apply(lambda row: "🏆" if row["Total Total"] ==
df["Total Total"].max() else "🍪", axis=1)`. -/
def assignEmoji (rows : List ScoreRow) : List ScoreRow :=
  rows.map (fun r => { r with emoji := if isTop (maxTotal rows) r then "🏆" else "🍪" })

/-- Descending comparison on grand totals, missing values placed last
(pandas `na_position="last"`). -/
def keyGT (a b : Option ℚ) : Bool :=
  match a, b with
  | some x, some y => x > y
  | some _, none => true
  | none, _ => false

def insertDesc (r : ScoreRow) : List ScoreRow → List ScoreRow
  | [] => [r]
  | x :: xs => if keyGT (totalOf r) (totalOf x) then r :: x :: xs else x :: insertDesc r xs

/-- `df.sort_values(by="Total Total", ascending=False)`.  NOTE: the source
uses pandas' default `kind="quicksort"`, whose order among equal keys is
unspecified; this model fixes one stable permutation, so no theorem in this
file asserts tie order as a fact of the source. -/
def sortByTotalDesc : List ScoreRow → List ScoreRow
  | [] => []
  | r :: rs => insertDesc r (sortByTotalDesc rs)

/-- `load_scores` minus file I/O: the raw parsed CSV rows in, the ranked,
emoji-marked table out. -/
def load_scores (raw : List ScoreRow) : List ScoreRow :=
  assignEmoji (sortByTotalDesc (dropMissingMember (raw.map replaceRow)))

/-! ## Spec-side definitions (for the refinement claim about §4.1)

These follow the WORDING of spec.md §4.1, to be compared with the
code-derived `scanStats` above. -/

/-- Spec §4.1: "A label is a win-indicator if it exactly equals
`w`/`win`/`wins`, or contains the substring `win` without also containing
`loss`." -/
def specWinIndicator (n : String) : Bool :=
  n == "w" || n == "win" || n == "wins" ||
    (strContains n "win" && !strContains n "loss")

/-- Spec §4.1: "A label is a loss-indicator if it exactly equals
`l`/`loss`/`losses`, or contains `loss`." -/
def specLossIndicator (n : String) : Bool :=
  n == "l" || n == "loss" || n == "losses" || strContains n "loss"

/-- Spec §4.1: "The last matching win-indicator and loss-indicator in
iteration order win (later entries overwrite earlier ones of the same
kind)" — each entry updates the win slot iff its label is a win-indicator
and the loss slot iff its label is a loss-indicator, labels and values
taken as in the code. -/
def specScan : List JVal → Int → Int → Int × Int
  | [], w, l => (w, l)
  | s :: rest, w, l =>
    match s with
    | .obj fs =>
      specScan rest
        (if specWinIndicator (statLabel fs) then statValue fs else w)
        (if specLossIndicator (statLabel fs) then statValue fs else l)
    | _ => specScan rest w l

/-! ## Lemmas -/

theorem winLabel_eq_spec (n : String) : winLabel n = specWinIndicator n := by
  by_cases h : n = ""
  · subst h; rfl
  · unfold winLabel specWinIndicator
    have hb : (n != "") = true := bne_iff_ne.mpr h
    rw [hb]
    simp [Bool.true_and]

theorem lossLabel_eq_spec (n : String) : lossLabel n = specLossIndicator n := by
  by_cases h : n = ""
  · subst h; rfl
  · unfold lossLabel specLossIndicator
    have hb : (n != "") = true := bne_iff_ne.mpr h
    rw [hb]
    simp [Bool.true_and]

theorem specWin_not_loss (n : String) (h : specWinIndicator n = true) :
    specLossIndicator n = false := by
  unfold specWinIndicator at h
  unfold specLossIndicator
  simp only [Bool.or_eq_true, Bool.and_eq_true, beq_iff_eq, Bool.not_eq_true'] at h
  rcases h with ((h | h) | h) | ⟨hw, hl⟩
  · subst h; rfl
  · subst h; rfl
  · subst h; rfl
  · have h1 : n ≠ "l" := by rintro rfl; exact absurd hw (by decide)
    have h2 : n ≠ "loss" := by rintro rfl; exact absurd hw (by decide)
    have h3 : n ≠ "losses" := by rintro rfl; exact absurd hw (by decide)
    simp [h1, h2, h3, hl]

theorem scanStats_eq_specScan (stats : List JVal) :
    ∀ w l : Int, scanStats stats w l = specScan stats w l := by
  induction stats with
  | nil => intro w l; rfl
  | cons s rest ih =>
    intro w l
    cases s with
    | obj fs =>
      show (if winLabel (statLabel fs) then scanStats rest (statValue fs) l
            else if lossLabel (statLabel fs) then scanStats rest w (statValue fs)
            else scanStats rest w l)
          = specScan rest
              (if specWinIndicator (statLabel fs) then statValue fs else w)
              (if specLossIndicator (statLabel fs) then statValue fs else l)
      rw [winLabel_eq_spec, lossLabel_eq_spec]
      cases hW : specWinIndicator (statLabel fs) with
      | true =>
        rw [specWin_not_loss _ hW]
        simp only [if_true, if_false, Bool.false_eq_true, ite_false, ite_true]
        exact ih _ _
      | false =>
        cases hL : specLossIndicator (statLabel fs) with
        | true =>
          simp only [Bool.false_eq_true, ite_false, ite_true]
          exact ih _ _
        | false =>
          simp only [Bool.false_eq_true, ite_false]
          exact ih _ _
    | null => exact ih w l
    | bool b => exact ih w l
    | num q => exact ih w l
    | str t => exact ih w l
    | arr xs => exact ih w l

theorem struct1Entry_truthy (cn g : JVal) (r : Row)
    (h : struct1Entry cn g = .ok (some r)) : pyTruthy r.team = true := by
  unfold struct1Entry at h
  repeat' split at h
  any_goals exact Except.noConfusion h
  any_goals (simp only [Except.ok.injEq] at h; exact Option.noConfusion h)
  simp only [Except.ok.injEq, Option.some.injEq] at h
  subst h
  simp_all

theorem struct1EntryList_truthy (cn : JVal) (gs : List JVal) (rs : List Row)
    (h : struct1EntryList cn gs = .ok rs) : ∀ r ∈ rs, pyTruthy r.team = true := by
  induction gs generalizing rs with
  | nil =>
    unfold struct1EntryList at h
    simp only [Except.ok.injEq] at h
    subst h
    intro r hr
    cases hr
  | cons g rest ih =>
    unfold struct1EntryList at h
    cases hE : struct1Entry cn g with
    | error e => simp only [hE] at h; exact Except.noConfusion h
    | ok r? =>
      simp only [hE] at h
      cases hL : struct1EntryList cn rest with
      | error e => simp only [hL] at h; exact Except.noConfusion h
      | ok rs0 =>
        simp only [hL, Except.ok.injEq] at h
        subst h
        intro r hr
        rcases List.mem_append.mp hr with hr | hr
        · cases r? with
          | some r0 =>
            simp only [List.mem_singleton] at hr
            subst hr
            exact struct1Entry_truthy cn g r hE
          | none => cases hr
        · exact ih rs0 hL r hr

theorem struct1Conf_truthy (conf : JVal) (rs : List Row)
    (h : struct1Conf conf = .ok rs) : ∀ r ∈ rs, pyTruthy r.team = true := by
  unfold struct1Conf at h
  repeat' split at h
  any_goals exact Except.noConfusion h
  exact struct1EntryList_truthy _ _ _ h

theorem struct1Confs_truthy (cs : List JVal) (rs : List Row)
    (h : struct1Confs cs = .ok rs) : ∀ r ∈ rs, pyTruthy r.team = true := by
  induction cs generalizing rs with
  | nil =>
    unfold struct1Confs at h
    simp only [Except.ok.injEq] at h
    subst h; intro r hr; cases hr
  | cons c rest ih =>
    unfold struct1Confs at h
    cases hE : struct1Conf c with
    | error e => simp only [hE] at h; exact Except.noConfusion h
    | ok rs1 =>
      simp only [hE] at h
      cases hL : struct1Confs rest with
      | error e => simp only [hL] at h; exact Except.noConfusion h
      | ok rs2 =>
        simp only [hL, Except.ok.injEq] at h
        subst h
        intro r hr
        rcases List.mem_append.mp hr with hr | hr
        · exact struct1Conf_truthy c rs1 hE r hr
        · exact ih rs2 hL r hr

theorem struct2Entry_truthy (cn g : JVal) (r : Row)
    (h : struct2Entry cn g = .ok (some r)) : pyTruthy r.team = true := by
  unfold struct2Entry at h
  repeat' split at h
  any_goals exact Except.noConfusion h
  any_goals (simp only [Except.ok.injEq] at h; exact Option.noConfusion h)
  all_goals (simp only [Except.ok.injEq, Option.some.injEq] at h; subst h; simp_all)

theorem struct2EntryList_truthy (cn : JVal) (gs : List JVal) (rs : List Row)
    (h : struct2EntryList cn gs = .ok rs) : ∀ r ∈ rs, pyTruthy r.team = true := by
  induction gs generalizing rs with
  | nil =>
    unfold struct2EntryList at h
    simp only [Except.ok.injEq] at h
    subst h; intro r hr; cases hr
  | cons g rest ih =>
    unfold struct2EntryList at h
    cases hE : struct2Entry cn g with
    | error e => simp only [hE] at h; exact Except.noConfusion h
    | ok r? =>
      simp only [hE] at h
      cases hL : struct2EntryList cn rest with
      | error e => simp only [hL] at h; exact Except.noConfusion h
      | ok rs0 =>
        simp only [hL, Except.ok.injEq] at h
        subst h
        intro r hr
        rcases List.mem_append.mp hr with hr | hr
        · cases r? with
          | some r0 =>
            simp only [List.mem_singleton] at hr
            subst hr
            exact struct2Entry_truthy cn g r hE
          | none => cases hr
        · exact ih rs0 hL r hr

theorem struct2Grp_truthy (grp : JVal) (rs : List Row)
    (h : struct2Grp grp = .ok rs) : ∀ r ∈ rs, pyTruthy r.team = true := by
  unfold struct2Grp at h
  repeat' split at h
  any_goals exact Except.noConfusion h
  exact struct2EntryList_truthy _ _ _ h

theorem struct2Grps_truthy (gs : List JVal) (rs : List Row)
    (h : struct2Grps gs = .ok rs) : ∀ r ∈ rs, pyTruthy r.team = true := by
  induction gs generalizing rs with
  | nil =>
    unfold struct2Grps at h
    simp only [Except.ok.injEq] at h
    subst h; intro r hr; cases hr
  | cons c rest ih =>
    unfold struct2Grps at h
    cases hE : struct2Grp c with
    | error e => simp only [hE] at h; exact Except.noConfusion h
    | ok rs1 =>
      simp only [hE] at h
      cases hL : struct2Grps rest with
      | error e => simp only [hL] at h; exact Except.noConfusion h
      | ok rs2 =>
        simp only [hL, Except.ok.injEq] at h
        subst h
        intro r hr
        rcases List.mem_append.mp hr with hr | hr
        · exact struct2Grp_truthy c rs1 hE r hr
        · exact ih rs2 hL r hr

theorem struct2Rows_truthy (data : JVal) (rs : List Row)
    (h : struct2Rows data = .ok rs) : ∀ r ∈ rs, pyTruthy r.team = true := by
  unfold struct2Rows at h
  repeat' split at h
  any_goals exact Except.noConfusion h
  all_goals exact struct2Grps_truthy _ _ h

theorem struct3Entry_truthy (g : JVal) (r : Row)
    (h : struct3Entry g = .ok (some r)) : pyTruthy r.team = true := by
  unfold struct3Entry at h
  repeat' (first | (split at h) | (dsimp only [] at h))
  all_goals first
    | exact Except.noConfusion h
    | (simp only [Except.ok.injEq] at h; exact Option.noConfusion h)
    | (simp only [Except.ok.injEq, Option.some.injEq] at h; subst h; simp_all)

theorem struct3List_truthy (gs : List JVal) (rs : List Row)
    (h : struct3List gs = .ok rs) : ∀ r ∈ rs, pyTruthy r.team = true := by
  induction gs generalizing rs with
  | nil =>
    unfold struct3List at h
    simp only [Except.ok.injEq] at h
    subst h; intro r hr; cases hr
  | cons g rest ih =>
    unfold struct3List at h
    cases hE : struct3Entry g with
    | error e => simp only [hE] at h; exact Except.noConfusion h
    | ok r? =>
      simp only [hE] at h
      cases hL : struct3List rest with
      | error e => simp only [hL] at h; exact Except.noConfusion h
      | ok rs0 =>
        simp only [hL, Except.ok.injEq] at h
        subst h
        intro r hr
        rcases List.mem_append.mp hr with hr | hr
        · cases r? with
          | some r0 =>
            simp only [List.mem_singleton] at hr
            subst hr
            exact struct3Entry_truthy g r hE
          | none => cases hr
        · exact ih rs0 hL r hr

theorem struct3Rows_truthy (data : JVal) (rs : List Row)
    (h : struct3Rows data = .ok rs) : ∀ r ∈ rs, pyTruthy r.team = true := by
  unfold struct3Rows at h
  repeat' split at h
  any_goals exact Except.noConfusion h
  all_goals first
    | exact struct3List_truthy _ _ h
    | (simp only [Except.ok.injEq] at h; subst h; intro r hr; cases hr)

theorem build_team_truthy (data : JVal) (rows : List Row)
    (h : build_standings_df data = .ok (some rows)) :
    ∀ r ∈ rows, pyTruthy r.team = true := by
  unfold build_standings_df at h
  by_cases hT : pyTruthy data = true
  · rw [if_pos hT] at h
    cases hC : pyGet data "children" (.arr []) with
    | error e => simp only [hC] at h; exact Except.noConfusion h
    | ok children =>
      simp only [hC] at h
      cases hI : pyIter children with
      | error e => simp only [hI] at h; exact Except.noConfusion h
      | ok confs =>
        simp only [hI] at h
        cases h1 : struct1Confs confs with
        | error e => simp only [h1] at h; exact Except.noConfusion h
        | ok rows1 =>
          simp only [h1] at h
          cases h2 : (if rows1.isEmpty then struct2Rows data else .ok rows1) with
          | error e => simp only [h2] at h; exact Except.noConfusion h
          | ok rows2 =>
            simp only [h2] at h
            have hrows2 : ∀ r ∈ rows2, pyTruthy r.team = true := by
              by_cases hemp : rows1.isEmpty
              · rw [if_pos hemp] at h2
                exact struct2Rows_truthy data rows2 h2
              · rw [if_neg hemp] at h2
                simp only [Except.ok.injEq] at h2
                subst h2
                exact struct1Confs_truthy confs rows1 h1
            cases h3 : (if rows2.isEmpty then struct3Rows data else .ok rows2) with
            | error e => simp only [h3] at h; exact Except.noConfusion h
            | ok rows3 =>
              simp only [h3] at h
              have hrows3 : ∀ r ∈ rows3, pyTruthy r.team = true := by
                by_cases hemp : rows2.isEmpty
                · rw [if_pos hemp] at h3
                  exact struct3Rows_truthy data rows3 h3
                · rw [if_neg hemp] at h3
                  simp only [Except.ok.injEq] at h3
                  subst h3
                  exact hrows2
              by_cases hemp : rows3.isEmpty
              · rw [if_pos hemp] at h
                simp only [Except.ok.injEq] at h
                exact Option.noConfusion h
              · rw [if_neg hemp] at h
                simp only [Except.ok.injEq, Option.some.injEq] at h
                subst h
                exact hrows3
  · rw [if_neg hT] at h
    simp only [Except.ok.injEq] at h
    exact Option.noConfusion h

theorem isTop_iff (t : ℚ) (r : ScoreRow) : isTop (some t) r = true ↔ totalOf r = some t := by
  unfold isTop
  cases hm : totalOf r with
  | none => simp
  | some q => simp [beq_iff_eq]

/-! ## Claims -/

/-- Claim C1.  The claim says the Record Extractor never raises, for every
stats list including lists of non-dict elements.  The code is a slip: for a
list of two non-dict entries the labelled scan yields `(0, 0)`, the
positional fallback runs `stats[0].get("value", 0)` on a non-dict, and the
resulting `AttributeError` is not in the `except (ValueError, TypeError,
IndexError)` clause, so `_parse_wins_losses(["a", "b"])` raises.  The empty
list does return `(0, 0)` as claimed. -/
theorem c1_extractor_never_raises_eval :
    parse_wins_losses [] = .ok (0, 0) ∧
    parse_wins_losses [.str "a", .str "b"] = .error "AttributeError" :=
  ⟨rfl, rfl⟩

def c2payload : JVal := .arr [.str "a", .str "b"]

/-- Claim C2.  The claim says the Standings Normalizer never raises, for
every payload including a bare list of strings.  The code is a slip: a
non-empty non-dict payload passes the `if not standings_data` guard and then
`standings_data.get("children", [])` raises `AttributeError`.  The absent
(`None`) and empty (`{}`) payloads do yield the "unavailable" result
(`None`) as claimed. -/
theorem c2_normalizer_never_raises_eval :
    build_standings_df c2payload = .error "AttributeError" ∧
    build_standings_df (.obj []) = .ok none ∧
    build_standings_df .null = .ok none :=
  ⟨rfl, rfl, rfl⟩

/-- Claim C3.  The labelled scan of the Record Extractor agrees, on every
stats list and every accumulator, with the scan prescribed by the spec's
win-indicator/loss-indicator definitions (`specScan`, written from the
spec's words); and the list
`[{"name": "wins", "value": "7"}, {"name": "losses", "value": "3"}]`
extracts to `(7, 3)`. -/
theorem c3_label_classification :
    (∀ stats : List JVal, ∀ w l : Int, scanStats stats w l = specScan stats w l) ∧
    parse_wins_losses
      [ .obj [("name", .str "wins"), ("value", .str "7")],
        .obj [("name", .str "losses"), ("value", .str "3")] ] = .ok (7, 3) :=
  ⟨fun stats => scanStats_eq_specScan stats, rfl⟩

def c4bad : List JVal := [.obj [("value", .str "abc")], .obj [("value", .str "5")]]

/-- Claim C4, counterexample.  For the two-entry unlabelled list
`[{"value": "abc"}, {"value": "5"}]` the labelled scan yields `(0, 0)`, so
the claim's positional rule (with the extractor's "0 when unparseable"
coercion) predicts `(0, 5)`; the code instead aborts the whole fallback when
`int(float("abc"))` raises, returning `(0, 0) ≠ (0, 5)`. -/
theorem c4_counterexample :
    parse_wins_losses c4bad = .ok (0, 0) ∧ ((0, 0) : Int × Int) ≠ ((0, 5) : Int × Int) :=
  ⟨rfl, by decide⟩

/-- Claim C4 as amended.  For every stats list of at least two entries whose
labelled scan yields `(0, 0)` and whose first two entries are dict entries
with cleanly coercible values, entry 0's value becomes wins and entry 1's
value becomes losses. -/
theorem c4_positional_fallback (s0 s1 : JVal) (rest : List JVal) (w2 l2 : Int)
    (hscan : scanStats (s0 :: s1 :: rest) 0 0 = (0, 0))
    (h0 : fallbackVal s0 = .ok (some w2))
    (h1 : fallbackVal s1 = .ok (some l2)) :
    parse_wins_losses (s0 :: s1 :: rest) = .ok (w2, l2) := by
  unfold parse_wins_losses
  rw [hscan]
  simp [h0, h1]

def c4s0 : JVal := .obj [("value", .num 10)]
def c4s1 : JVal := .obj [("value", .num 5)]

theorem c4_positional_fallback_witness : parse_wins_losses [c4s0, c4s1] = .ok (10, 5) :=
  c4_positional_fallback c4s0 c4s1 [] 10 5 rfl rfl rfl

def c5payload : JVal :=
  .obj [("standings", .arr [.str "x"]),
        ("teams", .arr [.obj [("team", .str "Ducks"), ("record", .str "3-2")]])]

/-- Claim C5.  The claim says the result is that of the first structural
hypothesis yielding a row.  The code is a slip for payloads whose
`"standings"` key holds a list: structure 1 yields no row, the structure-2
probe `content.get("standings", {}).get("groups", ...)` raises
`AttributeError` on the list, and the flat-teams hypothesis — which would
yield the `Ducks 3-2` row, as the second conjunct shows — is never
consulted. -/
theorem c5_first_hypothesis_eval :
    build_standings_df c5payload = .error "AttributeError" ∧
    struct3Rows c5payload = .ok [⟨.str "", .str "Ducks", .str "", 3, 2⟩] :=
  ⟨rfl, rfl⟩

def c6good : JVal :=
  .obj [("teams", .arr [.obj [("team", .obj [("displayName", .str "X")]), ("record", .str "12-4")]])]
def c6abc : JVal :=
  .obj [("teams", .arr [.obj [("team", .obj [("displayName", .str "X")]), ("record", .str "abc")]])]
def c6bug : JVal :=
  .obj [("teams", .arr [.obj [("team", .obj [("displayName", .str "X")]), ("wins", .str "abc")]])]

/-- Claim C6.  The record string `"12-4"` parses to wins=12, losses=4 and
the malformed record `"abc"` yields `(0, 0)` as claimed (the latter through
the explicit-fields branch, both fields absent).  But the claim also says
explicit win/loss fields default to 0 when unparseable; the code is a slip
there: `int(group.get("wins", 0) or 0)` has no try/except, so a present
`"abc"` wins field raises `ValueError`. -/
theorem c6_flat_record_parsing_eval :
    build_standings_df c6good = .ok (some [⟨.str "", .str "X", .str "", 12, 4⟩]) ∧
    build_standings_df c6abc = .ok (some [⟨.str "", .str "X", .str "", 0, 0⟩]) ∧
    build_standings_df c6bug = .error "ValueError" :=
  ⟨rfl, rfl, rfl⟩

/-- Claim C8.  In the emoji-marking step of the Leaderboard Ranker, whenever
the table has a maximum grand total `t`, a marked row carries the trophy
("top") indicator iff its grand total equals `t`, and the cookie ("default")
indicator iff it does not — so exactly the tied maximal rows are marked. -/
theorem c8_top_marking (rows : List ScoreRow) (t : ℚ) (hmax : maxTotal rows = some t)
    (r : ScoreRow) (hr : r ∈ assignEmoji rows) :
    (r.emoji = "🏆" ↔ totalOf r = some t) ∧ (r.emoji = "🍪" ↔ totalOf r ≠ some t) := by
  unfold assignEmoji at hr
  rcases List.mem_map.mp hr with ⟨r0, hr0, rfl⟩
  have htot : totalOf { r0 with emoji := if isTop (maxTotal rows) r0 then "🏆" else "🍪" }
      = totalOf r0 := rfl
  rw [htot, hmax]
  dsimp only
  cases hI : isTop (some t) r0 with
  | true =>
    have h1 := (isTop_iff t r0).mp hI
    rw [if_pos rfl]
    exact ⟨⟨fun _ => h1, fun _ => rfl⟩,
           ⟨fun hcontra => absurd hcontra (by decide), fun hcontra => absurd h1 hcontra⟩⟩
  | false =>
    have hne : totalOf r0 ≠ some t := by
      intro hcontra
      have hc2 := (isTop_iff t r0).mpr hcontra
      rw [hI] at hc2
      exact Bool.noConfusion hc2
    rw [if_neg (by decide)]
    exact ⟨⟨fun hcontra => absurd hcontra (by decide), fun htot2 => absurd htot2 hne⟩,
           ⟨fun _ => hne, fun _ => rfl⟩⟩

def c8rows : List ScoreRow :=
  [ { member := .strv "A", freeThrow := .missing, putting := .missing, beerPong := .missing,
      cornHole := .missing, gameTotal := .num 40, spiritTotal := .num 40, totalTotal := .num 80,
      emoji := "" },
    { member := .strv "B", freeThrow := .missing, putting := .missing, beerPong := .missing,
      cornHole := .missing, gameTotal := .num 30, spiritTotal := .num 20, totalTotal := .num 50,
      emoji := "" } ]

def c8topRow : ScoreRow :=
  { member := .strv "A", freeThrow := .missing, putting := .missing, beerPong := .missing,
    cornHole := .missing, gameTotal := .num 40, spiritTotal := .num 40, totalTotal := .num 80,
    emoji := "🏆" }

theorem c8_top_marking_witness :
    (c8topRow.emoji = "🏆" ↔ totalOf c8topRow = some 80) ∧
    (c8topRow.emoji = "🍪" ↔ totalOf c8topRow ≠ some 80) :=
  c8_top_marking c8rows 80 (by decide) c8topRow (by decide)

def c9payload : JVal :=
  .obj [("children", .arr [.obj [
    ("name", .str "C"),
    ("standings", .obj [("entries", .arr [.obj [
       ("team", .obj [("displayName", .str "X")]),
       ("stats", .arr [.obj [("name", .str "wins"), ("value", .num (-5))]])]])])]])]

def c9row : Row := ⟨.str "C", .str "X", .str "", -5, 0⟩

/-- Claim C9, counterexample.  A payload whose `"wins"` stat carries the
value `-5` produces a TeamRecord row with wins = `-5 < 0`: the normalizer
never clamps, so the claimed `wins ≥ 0` invariant fails. -/
theorem c9_counterexample :
    build_standings_df c9payload = .ok (some [c9row]) ∧ c9row.wins < 0 :=
  ⟨rfl, by decide⟩

/-- Claim C9 as amended.  Every TeamRecord row produced by the Standings
Normalizer, for every payload and under every structural hypothesis, has a
truthy team display name (in particular a non-empty string whenever the
name is a string); wins and losses are integers but may be negative when
the payload carries negative values. -/
theorem c9_team_name_truthy (data : JVal) (rows : List Row)
    (h : build_standings_df data = .ok (some rows)) :
    ∀ r ∈ rows, pyTruthy r.team = true :=
  build_team_truthy data rows h

theorem c9_team_name_truthy_witness : pyTruthy c9row.team = true :=
  c9_team_name_truthy c9payload [c9row] rfl c9row (List.Mem.head [])

def c10fs : List (String × JVal) := [("team", .str "Ducks"), ("record", .str "3-2")]

/-- Claim C10.  In the flat-teams shape an element whose team field is a
bare non-empty string is not skipped: the string itself becomes the team
display name and the abbreviation is the empty string — unlike the
content/groups shape, whose entry processor skips such elements
(second conjunct). -/
theorem c10_flat_string_team (fs : List (String × JVal)) (s : String) (w l : Int) (cn : JVal)
    (hteam : jLookup fs "team" = some (.str s))
    (hs : s ≠ "")
    (hwl : struct3WL (.obj fs) = .ok (w, l)) :
    struct3Entry (.obj fs) = .ok (some ⟨.str "", .str s, .str "", w, l⟩) ∧
    struct2Entry cn (.obj fs) = .ok none := by
  have hget : pyGet (.obj fs) "team" (.obj fs) = .ok (.str s) := by
    simp [pyGet, jGetD, hteam]
  constructor
  · unfold struct3Entry
    simp only [hget, hwl, pyStr]
    have htn : pyTruthy (JVal.str s) = true := by simp [pyTruthy, hs]
    rw [if_pos htn]
  · unfold struct2Entry
    simp only [hget]

theorem c10_flat_string_team_witness :
    struct3Entry (.obj c10fs) = .ok (some ⟨.str "", .str "Ducks", .str "", 3, 2⟩) ∧
    struct2Entry (.str "") (.obj c10fs) = .ok none :=
  c10_flat_string_team c10fs "Ducks" 3 2 (.str "") rfl (by decide) rfl
